import Mathlib

/-!
Verification of the fastAPI-cdk repository against its specification.

The development shallowly embeds the two artifacts of the repository:
* `src/src/main.py` — a FastAPI application with a single `GET /` route,
  CORS middleware, and a `uvicorn.run` entry point;
* `src/infrastructure/infrastructure/infrastructure_stack.py` together with
  `src/infrastructure/app.py` — an AWS CDK stack declaring an S3 bucket,
  a bucket deployment, a VPC with interface endpoints, two security groups,
  an application load balancer with a listener, an IAM role, an EC2 launch
  template with docker user data, an auto-scaling group, a target group and
  two CloudFormation outputs.

Pure declarative code becomes concrete Lean data; request handling becomes
an explicit state-passing function.
-/

namespace FastApiCdk

/-! ## Embedding of src/src/main.py -/

/-- JSON values, restricted to the shapes the embedded application ever
produces: strings, arrays of strings and objects with string values. -/
inductive Json where
  | str : String → Json
  | arr : List String → Json
  | obj : List (String × String) → Json
deriving DecidableEq, Repr

/-- The Python values that appear as handler return values in `main.py`.
The root handler returns a set literal of strings. -/
inductive PyValue where
  | pystr : String → PyValue
  | pyset : List String → PyValue
deriving DecidableEq, Repr

/-- FastAPI's `jsonable_encoder` on the value shapes used here: a Python
set is serialized as a JSON array of its elements. -/
def jsonableEncode : PyValue → Json
  | .pystr s => .str s
  | .pyset xs => .arr xs

/-- The value returned by `root` in `main.py`: the set literal
`\x7b"This is the root of the API"\x7d`. -/
def rootReturnValue : PyValue := .pyset ["This is the root of the API"]

/-- An HTTP request, with the fields the embedded application inspects. -/
structure Request where
  method : String
  path : String
  headers : List (String × String)
deriving DecidableEq, Repr

/-- An HTTP response. -/
structure Response where
  status : Nat
  headers : List (String × String)
  body : Json
deriving DecidableEq, Repr

/-- Configuration record of the CORS middleware registered by
`app.add_middleware(CORSMiddleware, ...)`. -/
structure CORSConfig where
  allow_origins : List String
  allow_credentials : Bool
  allow_methods : List String
  allow_headers : List String
deriving DecidableEq, Repr

/-- A registered route of the application. -/
structure Route where
  method : String
  path : String
deriving DecidableEq, Repr

/-- The FastAPI application object built at import time of `main.py`:
its constructor keywords, the middleware registered on it and the routes
declared with decorators. The module declares no other state. -/
structure AppConfig where
  title : String
  description : String
  version : String
  middleware : List CORSConfig
  routes : List Route
deriving DecidableEq, Repr

/-- The `app` object of `main.py` with its literal configuration. -/
def app : AppConfig :=
  { title := "Backend API"
    description := "FastAPI backend running on AWS Fargate"
    version := "1.0.0"
    middleware := [{ allow_origins := ["*"]
                     allow_credentials := true
                     allow_methods := ["*"]
                     allow_headers := ["*"] }]
    routes := [{ method := "GET", path := "/" }] }

/-- The `root` handler: it declares no parameters, reads nothing from the
request, and returns the fixed set literal, which the framework encodes as
JSON with status 200. -/
def root (_req : Request) : Response :=
  { status := 200, headers := [], body := jsonableEncode rootReturnValue }

/-- Routing: `main.py` registers exactly one route, `GET /`; every other
request falls through to the framework's 404 response. -/
def dispatch (req : Request) : Response :=
  if req.method = "GET" ∧ req.path = "/" then root req
  else { status := 404, headers := [], body := .obj [("detail", "Not Found")] }

/-- Case-insensitive-free header lookup on the embedded header lists
(the embedding stores header names lowercased). -/
def getHeader (hs : List (String × String)) (k : String) : Option String :=
  (hs.find? (fun p => p.fst = k)).map Prod.snd

/-- The response headers the CORS middleware adds to a simple
(non-preflight) cross-origin response, computed from its configuration:
with a wildcard origin list the allow-origin header is `*`, and with
`allow_credentials` the allow-credentials header is added. -/
def corsSimpleHeaders (cfg : CORSConfig) (origin : String) : List (String × String) :=
  let base :=
    if cfg.allow_origins.contains "*" then [("access-control-allow-origin", "*")]
    else if cfg.allow_origins.contains origin then [("access-control-allow-origin", origin)]
    else []
  if cfg.allow_credentials then base ++ [("access-control-allow-credentials", "true")]
  else base

/-- Wrap a response with the CORS headers for the given origin. -/
def corsWrap (cfg : CORSConfig) (origin : String) (resp : Response) : Response :=
  { resp with headers := corsSimpleHeaders cfg origin ++ resp.headers }

/-- Apply the registered middleware stack to a response: the CORS
middleware acts only on requests that carry an `origin` header. -/
def applyMiddleware (mws : List CORSConfig) (req : Request) (resp : Response) : Response :=
  match getHeader req.headers "origin", mws with
  | some origin, cfg :: _ => corsWrap cfg origin resp
  | _, _ => resp

/-- One request handled by the application: routing, then middleware.
The application state is the (immutable) app configuration; the handler
writes nothing to it. -/
def appHandle (st : AppConfig) (req : Request) : AppConfig × Response :=
  (st, applyMiddleware st.middleware req (dispatch req))

/-- Run a sequence of requests from a starting state, keeping the state
threading explicit. -/
def runRequests (st : AppConfig) : List Request → AppConfig
  | [] => st
  | r :: rs => runRequests (appHandle st r).1 rs

/-- The `__main__` block of `main.py`: `uvicorn.run(app, host="0.0.0.0", port=80)`. -/
structure UvicornRun where
  host : String
  port : Nat
deriving DecidableEq, Repr

/-- The literal arguments of the `uvicorn.run` call in `main.py`. -/
def mainEntry : UvicornRun := { host := "0.0.0.0", port := 80 }

/-! ## Embedding of the CDK stack

`infrastructure_stack.py` is a straight-line sequence of resource
instantiations with literal parameters; `app.py` instantiates the stack
once under the construct id `"FastApiCdkStack"` and synthesizes it. The
evaluation is embedded as a pure function from the construct id to the
list of declared resources, in source order. -/

/-- `RemovalPolicy` of the CDK. -/
inductive RemovalPolicy where
  | destroy
  | retain
deriving DecidableEq, Repr

/-- Subnet types used by the stack. -/
inductive SubnetType where
  | publicSubnet
  | privateWithEgress
deriving DecidableEq, Repr

/-- A `SubnetConfiguration` entry of the VPC. -/
structure SubnetConfiguration where
  name : String
  subnet_type : SubnetType
  cidr_mask : Nat
deriving DecidableEq, Repr

/-- A security-group peer: either any IPv4 address or another security
group, referenced by its construct id. -/
inductive Peer where
  | anyIpv4
  | securityGroupRef : String → Peer
deriving DecidableEq, Repr

/-- An ingress rule of a security group. -/
structure IngressRule where
  peer : Peer
  protocol : String
  port : Nat
  description : String
deriving DecidableEq, Repr

/-- A target-group health check (`elbv2.HealthCheck`). -/
structure TgHealthCheck where
  path : String
  healthy_http_codes : String
  interval_seconds : Nat
  timeout_seconds : Nat
  healthy_threshold_count : Nat
  unhealthy_threshold_count : Nat
deriving DecidableEq, Repr

/-- The trigger of an auto-scaling policy: either a cron schedule or a
metric threshold. The stack under verification declares neither; the
constructors exist so that the spec's statements about scale schedules
can be phrased over the resource graph. -/
inductive ScalingTrigger where
  | cron (expression : String)
  | metricUtilization (percent : Nat)
deriving DecidableEq, Repr

/-- The cloud resources a stack of this repository can declare. The
constructors `ecsCluster`, `fargateService` and `scalingPolicy` are part
of the vocabulary the spec speaks about (ECS cluster, container service,
scale schedules) and let the development state whether the evaluated
stack contains such resources; the remaining constructors carry the
literal keyword arguments of the corresponding instantiations in
`infrastructure_stack.py`. -/
inductive Resource where
  | s3Bucket (id : String) (removal_policy : RemovalPolicy) (auto_delete_objects : Bool)
  | bucketDeployment (id : String) (sources : List String) (destination_bucket : String)
  | vpc (id : String) (max_azs : Nat) (nat_gateways : Nat)
      (subnet_configuration : List SubnetConfiguration)
  | interfaceEndpoint (id : String) (service : String)
  | securityGroup (id : String) (allow_all_outbound : Bool) (description : String)
      (ingress_rules : List IngressRule)
  | applicationLoadBalancer (id : String) (internet_facing : Bool) (security_group : String)
  | albListener (id : String) (port : Nat) (openToAnyIpv4 : Bool)
  | iamRole (id : String) (assumed_by : String) (managed_policies : List String)
      (inline_actions : List String) (inline_resources : List String)
  | launchTemplate (id : String) (instance_type : String) (machine_image : String)
      (user_data : List String) (role : String) (security_group : String)
  | autoScalingGroup (id : String) (subnet_type : SubnetType) (launch_template : String)
      (min_capacity : Nat) (max_capacity : Nat) (desired_capacity : Nat)
      (health_check_grace_seconds : Nat)
  | targetGroup (id : String) (port : Nat) (targets : List String)
      (health_check : TgHealthCheck)
  | ecsCluster (id : String)
  | fargateService (id : String) (image : String)
  | scalingPolicy (id : String) (trigger : ScalingTrigger)
  | cfnOutput (id : String) (value : String) (description : String)
deriving DecidableEq, Repr

/-- Deploy-time token standing for `source_bucket.bucket_name`. -/
def sourceBucketNameToken : String := "<SourceCodeBucket.bucket_name>"

/-- Deploy-time token standing for `source_bucket.bucket_arn`. -/
def sourceBucketArnToken : String := "<SourceCodeBucket.bucket_arn>"

/-- The `docker run` line of the user data, parameterized by the
host/container port mapping and the image it consumes. -/
def dockerRunCommand (hostPort containerPort : Nat) (image : String) : String :=
  "docker run -d --name backend-app -p " ++ toString hostPort ++ ":"
    ++ toString containerPort ++ " " ++ image ++ " || echo \x27Docker run failed\x27"

/-- The host:container port mapping published by the `docker run` command
in the user data (`-p 80:80`). -/
def containerPortMapping : Nat × Nat := (80, 80)

/-- The user-data script of the launch template, command by command as
added by `user_data.add_commands` in the source. -/
def userDataCommands (bucketName : String) : List String :=
  [ "exec > >(tee /var/log/user-data.log|logger -t user-data -s 2>/dev/console) 2>&1"
  , "yum update -y"
  , "yum install -y docker git aws-cli"
  , "systemctl start docker"
  , "systemctl enable docker"
  , "usermod -a -G docker ec2-user"
  , "mkdir -p /app"
  , "cd /app"
  , "aws s3 cp s3://" ++ bucketName ++ "/ . --recursive"
  , "ls -la /app"
  , "docker build -t backend-app . || echo \x27Docker build failed\x27"
  , "echo \x27Starting container...\x27"
  , dockerRunCommand containerPortMapping.1 containerPortMapping.2 "backend-app"
  , "echo \x27Container logs:\x27"
  , "sleep 5"
  , "docker ps"
  , "docker logs backend-app || echo \x27No container logs available\x27"
  , "netstat -tulpn | grep LISTEN"
  , "curl -v http://localhost:80 || echo \x27Failed to connect to localhost\x27" ]

/-- `source_bucket`: `s3.Bucket(..., removal_policy=DESTROY, auto_delete_objects=True)`. -/
def source_bucket : Resource := .s3Bucket "SourceCodeBucket" .destroy true

/-- `s3deploy.BucketDeployment(..., sources=[Source.asset("../src")], ...)`. -/
def deploySource : Resource := .bucketDeployment "DeploySource" ["../src"] "SourceCodeBucket"

/-- `vpc`: `ec2.Vpc(..., max_azs=2, nat_gateways=1, subnet_configuration=[...])`. -/
def simpleVpc : Resource :=
  .vpc "SimpleVPC" 2 1
    [ { name := "Public", subnet_type := .publicSubnet, cidr_mask := 24 }
    , { name := "Private", subnet_type := .privateWithEgress, cidr_mask := 24 } ]

/-- `alb_security_group` with its explicit ingress rule (`Peer.any_ipv4`,
`Port.tcp(80)`) and the rule `open=True` on the listener adds to it. -/
def alb_security_group : Resource :=
  .securityGroup "ALBSecurityGroup" true "Security group for ALB"
    [ { peer := .anyIpv4, protocol := "tcp", port := 80
        description := "Allow HTTP traffic" }
    , { peer := .anyIpv4, protocol := "tcp", port := 80
        description := "Allow from anyone on port 80" } ]

/-- `instance_security_group` with its single ingress rule, from the ALB
security group on TCP 80. -/
def instance_security_group : Resource :=
  .securityGroup "InstanceSecurityGroup" true "Security group for EC2 instances"
    [ { peer := .securityGroupRef "ALBSecurityGroup", protocol := "tcp", port := 80
        description := "Allow traffic from ALB" } ]

/-- `alb`: `elbv2.ApplicationLoadBalancer(..., internet_facing=True, ...)`. -/
def webServerAlb : Resource := .applicationLoadBalancer "WebServerALB" true "ALBSecurityGroup"

/-- `listener`: `alb.add_listener("Listener", port=80, open=True)`. -/
def listener : Resource := .albListener "Listener" 80 true

/-- `role`: the EC2 instance role with its managed policies and the inline
statement over the source bucket. -/
def ec2Role : Resource :=
  .iamRole "EC2Role" "ec2.amazonaws.com"
    [ "AmazonEC2ContainerRegistryFullAccess"
    , "CloudWatchLogsFullAccess"
    , "AmazonSSMManagedInstanceCore" ]
    ["s3:GetObject", "s3:ListBucket"]
    [sourceBucketArnToken, sourceBucketArnToken ++ "/*"]

/-- `launch_template`: t3.small, Amazon Linux 2, the user-data script, the
EC2 role and the instance security group. -/
def launch_template : Resource :=
  .launchTemplate "WebServerTemplate" "t3.small" "AmazonLinux2"
    (userDataCommands sourceBucketNameToken) "EC2Role" "InstanceSecurityGroup"

/-- `asg`: the auto-scaling group with `min_capacity=1`, `max_capacity=4`,
`desired_capacity=2` and an ELB health check with 180 s grace. -/
def webServerAsg : Resource :=
  .autoScalingGroup "WebServerASG" .privateWithEgress "WebServerTemplate" 1 4 2 180

/-- `listener.add_targets("WebServerFleet", port=80, targets=[asg], ...)`. -/
def webServerFleet : Resource :=
  .targetGroup "WebServerFleet" 80 ["WebServerASG"]
    { path := "/", healthy_http_codes := "200", interval_seconds := 30
      timeout_seconds := 10, healthy_threshold_count := 2
      unhealthy_threshold_count := 5 }

/-- The resource graph produced by evaluating
`InfrastructureStack(scope, construct_id)`: the instantiations of
`__init__` in source order. The body reads nothing besides its literal
parameters, so the list does not depend on the construct id. -/
def infrastructureStack (_construct_id : String) : List Resource :=
  [ source_bucket
  , deploySource
  , simpleVpc
  , .interfaceEndpoint "SSMEndpoint" "SSM"
  , .interfaceEndpoint "EC2MessagesEndpoint" "EC2_MESSAGES"
  , .interfaceEndpoint "SSMMessagesEndpoint" "SSM_MESSAGES"
  , alb_security_group
  , instance_security_group
  , webServerAlb
  , listener
  , ec2Role
  , launch_template
  , webServerAsg
  , webServerFleet
  , .cfnOutput "LoadBalancerDNS" "<WebServerALB.load_balancer_dns_name>"
      "DNS name of the load balancer"
  , .cfnOutput "SourceBucketName" sourceBucketNameToken
      "Name of the S3 bucket containing source code" ]

/-- `app.py`: `InfrastructureStack(app, "FastApiCdkStack")` followed by
`app.synth()` — the one stack the CDK app evaluates. -/
def fastApiCdkStack : List Resource := infrastructureStack "FastApiCdkStack"

/-! ## Accessors over the resource graph -/

/-- The construct id of a resource. -/
def resourceId : Resource → String
  | .s3Bucket i _ _ => i
  | .bucketDeployment i _ _ => i
  | .vpc i _ _ _ => i
  | .interfaceEndpoint i _ => i
  | .securityGroup i _ _ _ => i
  | .applicationLoadBalancer i _ _ => i
  | .albListener i _ _ => i
  | .iamRole i _ _ _ _ => i
  | .launchTemplate i _ _ _ _ _ => i
  | .autoScalingGroup i _ _ _ _ _ _ => i
  | .targetGroup i _ _ _ => i
  | .ecsCluster i => i
  | .fargateService i _ => i
  | .scalingPolicy i _ => i
  | .cfnOutput i _ _ => i

/-- Whether a resource is an ECS cluster. -/
def isEcsCluster : Resource → Bool
  | .ecsCluster _ => true
  | _ => false

/-- Whether a resource is a container-service definition consuming a
container image reference (a Fargate/ECS service). -/
def isContainerService : Resource → Bool
  | .fargateService _ _ => true
  | _ => false

/-- Whether a resource is a scaling policy (of any trigger kind). -/
def isScalingPolicy : Resource → Bool
  | .scalingPolicy _ _ => true
  | _ => false

/-- Whether a resource is a scaling policy triggered by a cron expression. -/
def isCronScalingPolicy : Resource → Bool
  | .scalingPolicy _ (.cron _) => true
  | _ => false

/-- The ingress rules a resource declares (empty unless it is a security
group). -/
def ingressRulesOf : Resource → List IngressRule
  | .securityGroup _ _ _ rules => rules
  | _ => []

/-- The min/max capacity bounds of a resource, when it is an auto-scaling
group. -/
def asgBounds : Resource → Option (Nat × Nat)
  | .autoScalingGroup _ _ _ mn mx _ _ => some (mn, mx)
  | _ => none

/-- The min/desired/max capacities of a resource, when it is an
auto-scaling group. -/
def asgCapacities : Resource → Option (Nat × Nat × Nat)
  | .autoScalingGroup _ _ _ mn mx ds _ => some (mn, ds, mx)
  | _ => none

/-- The listening ports a resource declares: security-group ingress
ports, the listener port and the target-group port. -/
def resourcePorts : Resource → List Nat
  | .securityGroup _ _ _ rules => rules.map IngressRule.port
  | .albListener _ p _ => [p]
  | .targetGroup _ p _ _ => [p]
  | _ => []

/-- Every listening port declared anywhere in the repository: ports of
the resource graph, the uvicorn bind port and both sides of the docker
port mapping. -/
def declaredPorts : List Nat :=
  (fastApiCdkStack.map resourcePorts).flatten
    ++ [mainEntry.port, containerPortMapping.1, containerPortMapping.2]

/-- The removal policy and auto-delete flag of a resource, when it is an
S3 bucket. -/
def bucketPolicy : Resource → Option (RemovalPolicy × Bool)
  | .s3Bucket _ r a => some (r, a)
  | _ => none

/-- The objects an S3 bucket retains after stack teardown, per
CloudFormation semantics: a `RETAIN` bucket keeps its objects; a
`DESTROY` bucket with `auto_delete_objects` is emptied and deleted, while
without the flag deletion fails on a non-empty bucket, which then keeps
its objects. -/
def retainedAfterTeardown (removal : RemovalPolicy) (autoDelete : Bool)
    (objects : List String) : List String :=
  match removal with
  | .retain => objects
  | .destroy => if autoDelete then [] else objects

/-- Objects retained after teardown for a bucket resource. -/
def bucketRetainedObjects (r : Resource) (objects : List String) :
    Option (List String) :=
  match r with
  | .s3Bucket _ removal autoDelete => some (retainedAfterTeardown removal autoDelete objects)
  | _ => none

/-- The diff between two resource graphs: resources present in one and
not the other. Redeployment applies this diff; an empty diff is a no-op. -/
def resourceDiff (old new : List Resource) : List Resource :=
  new.filter (fun r => decide (r ∉ old)) ++ old.filter (fun r => decide (r ∉ new))

/-! ## Helper lemmas -/

theorem runRequests_eq (st : AppConfig) (l : List Request) :
    runRequests st l = st := by
  induction l generalizing st with
  | nil => rfl
  | cons r rs ih => simpa [runRequests, appHandle] using ih st

theorem applyMiddleware_status (mws : List CORSConfig) (req : Request) (resp : Response) :
    (applyMiddleware mws req resp).status = resp.status := by
  unfold applyMiddleware
  split <;> rfl

theorem applyMiddleware_body (mws : List CORSConfig) (req : Request) (resp : Response) :
    (applyMiddleware mws req resp).body = resp.body := by
  unfold applyMiddleware
  split <;> rfl

theorem resourceDiff_self (l : List Resource) : resourceDiff l l = [] := by
  simp [resourceDiff, List.filter_eq_nil_iff]

/-! ## Claims -/

/-- C1: every `GET /` request is answered with status 200 and the fixed
JSON payload `["This is the root of the API"]`, whatever requests were
handled before; the embedded root handler is a constant function of the
request. -/
theorem root_get_fixed_200 (prior : List Request) (req : Request)
    (hm : req.method = "GET") (hp : req.path = "/") :
    ((appHandle (runRequests app prior) req).2.status = 200 ∧
     (appHandle (runRequests app prior) req).2.body =
       Json.arr ["This is the root of the API"]) ∧
    ∀ r₁ r₂ : Request, root r₁ = root r₂ := by
  refine ⟨⟨?_, ?_⟩, fun _ _ => rfl⟩ <;>
    simp [appHandle, applyMiddleware_status, applyMiddleware_body, dispatch, hm, hp,
      root, jsonableEncode, rootReturnValue]

theorem root_get_fixed_200_witness :
    (({ method := "GET", path := "/", headers := [] } : Request).method = "GET" ∧
     ({ method := "GET", path := "/", headers := [] } : Request).path = "/") ∧
    ((appHandle (runRequests app [])
        { method := "GET", path := "/", headers := [] }).2.status = 200 ∧
     (appHandle (runRequests app [])
        { method := "GET", path := "/", headers := [] }).2.body =
       Json.arr ["This is the root of the API"]) :=
  ⟨⟨rfl, rfl⟩,
   (root_get_fixed_200 [] { method := "GET", path := "/", headers := [] } rfl rfl).1⟩

/-- C2 (counterexample): the resource graph of the evaluated stack
contains no ECS cluster and no container-service (Fargate/ECS service)
resource, so the claim that it declares an ECS cluster and such a service
is false. -/
theorem no_ecs_cluster_in_stack :
    fastApiCdkStack.any isEcsCluster = false ∧
    fastApiCdkStack.any isContainerService = false := by decide

/-- C2 (amended): the stack declares no ECS cluster or Fargate service;
the container workload is instead an EC2 auto-scaling group whose launch
template's user data runs the container image `backend-app` with docker,
publishing port mapping 80:80. -/
theorem asg_docker_container_service :
    fastApiCdkStack.all (fun r => !(isEcsCluster r) && !(isContainerService r)) = true ∧
    webServerAsg ∈ fastApiCdkStack ∧
    launch_template ∈ fastApiCdkStack ∧
    dockerRunCommand 80 80 "backend-app" ∈ userDataCommands sourceBucketNameToken := by
  exact ⟨by decide, by decide, by decide, by decide⟩

/-- C3 (counterexample): the resource graph contains no scaling policy
triggered by a cron expression, so the claim that the deployment
parameters include cron-based scale schedules is false. -/
theorem no_cron_scaling_policy :
    fastApiCdkStack.any isCronScalingPolicy = false := by decide

/-- C3 (amended): the stack declares no scaling policy at all — neither
cron-based nor metric-based; capacity is fixed by the literal
min/desired/max replica counts 1/2/4 on the auto-scaling group. -/
theorem no_scaling_policy_literal_capacity :
    fastApiCdkStack.all (fun r => !(isScalingPolicy r)) = true ∧
    webServerAsg ∈ fastApiCdkStack ∧
    asgCapacities webServerAsg = some (1, 2, 4) := by
  exact ⟨by decide, by decide, rfl⟩

/-- C4: evaluating the stack reads no runtime input — with equal
construct parameters any two evaluations yield identical resource graphs
and the redeployment diff is empty. -/
theorem stack_evaluation_idempotent (id₁ id₂ : String) (h : id₁ = id₂) :
    infrastructureStack id₁ = infrastructureStack id₂ ∧
    resourceDiff (infrastructureStack id₁) (infrastructureStack id₂) = [] := by
  subst h
  exact ⟨rfl, resourceDiff_self _⟩

theorem stack_evaluation_idempotent_witness :
    ("FastApiCdkStack" : String) = "FastApiCdkStack" ∧
    resourceDiff (infrastructureStack "FastApiCdkStack")
      (infrastructureStack "FastApiCdkStack") = [] :=
  ⟨rfl, (stack_evaluation_idempotent "FastApiCdkStack" "FastApiCdkStack" rfl).2⟩

/-- C5: the literal min/max replica bounds of every auto-scaling group in
the graph satisfy min ≤ max; the one declared group has bounds (1, 4). -/
theorem asg_min_le_max :
    fastApiCdkStack.all
      (fun r => (asgBounds r).all (fun b => decide (b.1 ≤ b.2))) = true ∧
    webServerAsg ∈ fastApiCdkStack ∧
    asgBounds webServerAsg = some (1, 4) := by
  exact ⟨by decide, by decide, rfl⟩

/-- C6: port 80 is the only declared listening port — the uvicorn entry
point binds port 80, the docker port mapping is 80:80, the listener and
the target group use port 80, and every port declared anywhere in the
resource graph equals 80. -/
theorem all_declared_ports_80 :
    mainEntry.port = 80 ∧
    containerPortMapping = (80, 80) ∧
    listener ∈ fastApiCdkStack ∧
    resourcePorts listener = [80] ∧
    webServerFleet ∈ fastApiCdkStack ∧
    resourcePorts webServerFleet = [80] ∧
    declaredPorts.all (fun p => p == 80) = true := by
  exact ⟨rfl, rfl, by decide, rfl, by decide, rfl, by decide⟩

/-- C7: handling a request leaves the application state exactly as it
was — the root handler reads and writes no application state. -/
theorem root_handler_preserves_state (st : AppConfig) (req : Request) :
    (appHandle st req).1 = st ∧ runRequests st [req] = st :=
  ⟨rfl, rfl⟩

/-- C8: the application registers CORS middleware allowing every origin,
every method and every header with credentials allowed, and every
response to a request that carries an `origin` header includes the
permissive CORS response headers. -/
theorem cors_registered_permissive :
    app.middleware = [{ allow_origins := ["*"], allow_credentials := true,
                        allow_methods := ["*"], allow_headers := ["*"] }] ∧
    ∀ (req : Request) (origin : String),
      getHeader req.headers "origin" = some origin →
      ("access-control-allow-origin", "*") ∈ (appHandle app req).2.headers ∧
      ("access-control-allow-credentials", "true") ∈ (appHandle app req).2.headers := by
  refine ⟨rfl, fun req origin h => ?_⟩
  constructor <;>
    simp [appHandle, applyMiddleware, h, app, corsWrap, corsSimpleHeaders]

theorem cors_registered_permissive_witness :
    getHeader [("origin", "http://example.com")] "origin" = some "http://example.com" ∧
    ("access-control-allow-origin", "*") ∈
      (appHandle app { method := "GET", path := "/"
                       headers := [("origin", "http://example.com")] }).2.headers :=
  ⟨rfl,
   (cors_registered_permissive.2
      { method := "GET", path := "/", headers := [("origin", "http://example.com")] }
      "http://example.com" rfl).1⟩

/-- C9: every ingress rule of the instance security group admits only TCP
port 80 and only the ALB security group as peer, and the ALB security
group is the only resource in the graph with an any-IPv4 ingress rule. -/
theorem instance_ingress_only_from_alb :
    instance_security_group ∈ fastApiCdkStack ∧
    (ingressRulesOf instance_security_group).all
      (fun rule => rule.peer == Peer.securityGroupRef "ALBSecurityGroup"
        && rule.protocol == "tcp" && rule.port == 80) = true ∧
    fastApiCdkStack.all (fun r =>
      (ingressRulesOf r).all (fun rule =>
        rule.peer != Peer.anyIpv4 || resourceId r == "ALBSecurityGroup")) = true := by
  exact ⟨by decide, by decide, by decide⟩

/-- C10: the source-code bucket is declared with removal policy `DESTROY`
and `auto_delete_objects=True`, so after stack teardown it retains no
objects, whatever it contained. -/
theorem source_bucket_destroyed_on_teardown :
    source_bucket ∈ fastApiCdkStack ∧
    bucketPolicy source_bucket = some (.destroy, true) ∧
    ∀ objects : List String, bucketRetainedObjects source_bucket objects = some [] := by
  exact ⟨by decide, rfl, fun _ => rfl⟩

theorem source_bucket_destroyed_on_teardown_witness :
    bucketRetainedObjects source_bucket ["main.py", "Dockerfile"] = some [] :=
  source_bucket_destroyed_on_teardown.2.2 ["main.py", "Dockerfile"]

end FastApiCdk
